import Mathlib

/-!
# Alert-definition HTTP handlers of `pkg/services/ngalert/api.go`

A shallow embedding of the handlers `ConditionEval`, `AlertDefinitionEval`,
`GetAlertDefinitionEndpoint`, `DeleteAlertDefinitionEndpoint`,
`CreateAlertDefinitionEndpoint` and `ListAlertDefinitions`.

Every handler is a function of the collaborators it calls (the receiver `ng`
and the packages `eval`, `tsdb`, `setting`, `context`), of the request, and of
the state of the outside world.  A handler returns its response, the world it
leaves behind, and the sequence of collaborator calls it made, in order.
-/

namespace ngalert

/-! ## Types declared outside `api.go` -/

/-- The data types `api.go` only passes around, taken as parameters.  `World`
is the state a collaborator doing I/O can read or change (definition store,
cache, data sources, clock). -/
structure Types where
  /-- State of the store, the cache, the data sources and the clock. -/
  World : Type
  /-- The type `eval.Condition`. -/
  Condition : Type
  /-- What `Condition.Execute` returns on success. -/
  ExecutionResults : Type
  /-- What `eval.EvaluateExecutionResult` returns on success. -/
  Results : Type
  /-- The type `data.Frame`. -/
  Frame : Type
  /-- What `DataFrames.Encoded` returns on success. -/
  Encoded : Type
  /-- The Go type `error`, for non-nil errors. -/
  Error : Type
  /-- The fields of a bound `SaveAlertDefinitionCommand` that `api.go` never touches. -/
  Payload : Type

/-- The type `models.SignedInUser`: the caller's identity and organization. -/
structure SignedInUser where
  UserId : Int
  OrgId : Int
deriving DecidableEq, Repr

/-- The part of `models.ReqContext` the handlers read. -/
structure ReqContext where
  SignedInUser : ngalert.SignedInUser
  SkipCache : Bool
  /-- The method `c.Query(name)`: a URL query parameter, empty when absent. -/
  Query : String → String
  /-- The method `c.ParamsInt64(name)`: a path parameter. -/
  ParamsInt64 : String → Int

/-- A `context.Context`, reduced to its deadline (an instant, `none` when unbounded). -/
structure Context where
  deadline : Option Int
deriving DecidableEq, Repr

/-- Go's `context.Background()`: no deadline. -/
def context.Background : Context := ⟨none⟩

/-- Go's `context.WithDeadline`: the earlier of the parent's deadline and `d`. -/
def context.WithDeadline (parent : Context) (d : Int) : Context :=
  match parent.deadline with
  | some cur => if cur < d then parent else ⟨some d⟩
  | none => ⟨some d⟩

/-- Go's `context.WithTimeout(parent, timeout)`, called when the clock reads `now`. -/
def context.WithTimeout (parent : Context) (timeout : Int) (now : Int) : Context :=
  context.WithDeadline parent (now + timeout)

/-- The type `eval.AlertExecCtx`. -/
structure AlertExecCtx where
  Ctx : Context
  SignedInUser : ngalert.SignedInUser
deriving DecidableEq, Repr

/-- The body of `POST /api/alert-definitions/eval`. -/
structure EvalAlertConditionCommand (T : Types) where
  Condition : T.Condition

/-- The type `tsdb.DataFrames`, holding decoded frames. -/
structure DataFrames (T : Types) where
  decoded : List T.Frame

/-- The constructor `tsdb.NewDecodedDataFrames`. -/
def tsdb.NewDecodedDataFrames {T : Types} (frames : List T.Frame) : DataFrames T :=
  ⟨frames⟩

/-- An alert definition, identified by `(OrgId, Id)`. -/
structure AlertDefinition where
  Id : Int
  OrgId : Int
deriving DecidableEq, Repr

/-- The query built by `GetAlertDefinitionEndpoint`.  The struct literal in the
handler sets `ID` alone; every other field starts at its zero value. -/
structure GetAlertDefinitionByIDQuery where
  ID : Int
  Result : AlertDefinition := ⟨0, 0⟩
deriving DecidableEq, Repr

/-- The query built by `DeleteAlertDefinitionEndpoint`. -/
structure DeleteAlertDefinitionByIDQuery where
  ID : Int
  OrgID : Int
  RowsAffected : Int := 0
deriving DecidableEq, Repr

/-- The command bound from the body of `POST /api/alert-definitions`. -/
structure SaveAlertDefinitionCommand (T : Types) where
  Body : T.Payload
  OrgID : Int
  SignedInUser : Option ngalert.SignedInUser
  SkipCache : Bool
  Result : AlertDefinition

/-- The command built by `ListAlertDefinitions`. -/
structure ListAlertDefinitionsCommand where
  OrgID : Int
  Result : List AlertDefinition := []
deriving DecidableEq, Repr

/-! ## Responses -/

/-- A value placed in a response body. -/
inductive Value (T : Types) where
  | int (n : Int)
  | encoded (e : T.Encoded)
  | definition (d : AlertDefinition)
  | definitions (ds : List AlertDefinition)

/-- A response body: a `util.DynMap` literal (keys in the order written) or a
single value. -/
inductive Body (T : Types) where
  | dynMap (m : List (String × Value T))
  | value (v : Value T)

/-- An `api.Response`: what `api.Error(status, message, err)` and
`api.JSON(status, body)` were called with. -/
inductive Response (T : Types) where
  | Error (status : Nat) (message : String) (err : T.Error)
  | JSON (status : Nat) (body : Body T)

/-- The call `api.Error(status, message, err)`. -/
def api.Error {T : Types} (status : Nat) (message : String) (err : T.Error) : Response T :=
  Response.Error status message err

/-- The call `api.JSON(status, body)`. -/
def api.JSON {T : Types} (status : Nat) (body : Body T) : Response T :=
  Response.JSON status body

/-- HTTP status of a response. -/
def Response.status {T : Types} : Response T → Nat
  | .Error status _ _ => status
  | .JSON status _ => status

/-- Keys of the JSON map a response carries as payload (none for an error
response or a non-map body). -/
def Response.keys {T : Types} : Response T → List String
  | .JSON _ (.dynMap m) => m.map Prod.fst
  | _ => []

/-- The value under `key` in the JSON map a response carries as payload. -/
def Response.payload {T : Types} (r : Response T) (key : String) : Option (Value T) :=
  match r with
  | .JSON _ (.dynMap m) => (m.find? (fun kv => kv.1 == key)).map Prod.snd
  | _ => none

/-! ## Collaborators and call traces -/

/-- The receiver `ng *AlertNG` together with the package-level collaborators
the handlers call.  A collaborator that performs I/O takes the world and
returns the world it leaves; `EvaluateExecutionResult`, `AsDataFrame` and
`Encoded` transform values only. -/
structure AlertNG (T : Types) where
  /-- The clock read by `context.WithTimeout`. -/
  now : T.World → Int
  /-- The constant `setting.AlertingEvaluationTimeout`. -/
  AlertingEvaluationTimeout : Int
  LoadAlertCondition : Int → SignedInUser → Bool → T.World → Except T.Error T.Condition × T.World
  Execute : T.Condition → AlertExecCtx → String → String → T.World →
    Except T.Error T.ExecutionResults × T.World
  EvaluateExecutionResult : T.ExecutionResults → Except T.Error T.Results
  AsDataFrame : T.Results → T.Frame
  Encoded : DataFrames T → Except T.Error T.Encoded
  /-- The call `ng.Bus.Dispatch(&query)` for a `GetAlertDefinitionByIDQuery`. -/
  Dispatch : GetAlertDefinitionByIDQuery → T.World →
    Except T.Error GetAlertDefinitionByIDQuery × T.World
  DeleteAlertDefinitionByID : DeleteAlertDefinitionByIDQuery → T.World →
    Except T.Error DeleteAlertDefinitionByIDQuery × T.World
  SaveAlertDefinition : SaveAlertDefinitionCommand T → T.World →
    Except T.Error (SaveAlertDefinitionCommand T) × T.World
  GetAlertDefinitions : ListAlertDefinitionsCommand → T.World →
    Except T.Error ListAlertDefinitionsCommand × T.World

/-- One collaborator call made by a handler, with its arguments. -/
inductive Event (T : Types) where
  | WithTimeout (timeout : Int) (created : Int)
  | cancelFn
  | LoadAlertCondition (id : Int) (user : SignedInUser) (skipCache : Bool)
  | Execute (cond : T.Condition) (ctx : AlertExecCtx) (fromStr toStr : String)
  | EvaluateExecutionResult (execResult : T.ExecutionResults)
  | AsDataFrame (evalResults : T.Results)
  | Encoded (df : DataFrames T)
  | Dispatch (query : GetAlertDefinitionByIDQuery)
  | DeleteAlertDefinitionByID (query : DeleteAlertDefinitionByIDQuery)
  | SaveAlertDefinition (cmd : SaveAlertDefinitionCommand T)
  | GetAlertDefinitions (cmd : ListAlertDefinitionsCommand)

/-- The world and the calls made so far, oldest first. -/
structure St (T : Types) where
  world : T.World
  trace : List (Event T)

/-- Record a call. -/
def St.log {T : Types} (s : St T) (e : Event T) : St T :=
  { s with trace := s.trace ++ [e] }

/-- The call `context.WithTimeout(context.Background(), setting.AlertingEvaluationTimeout)`. -/
def callWithTimeout {T : Types} (ng : AlertNG T) (s : St T) : Context × St T :=
  (context.WithTimeout context.Background ng.AlertingEvaluationTimeout (ng.now s.world),
   s.log (.WithTimeout ng.AlertingEvaluationTimeout (ng.now s.world)))

/-- The call `ng.LoadAlertCondition(id, user, skipCache)`. -/
def callLoadAlertCondition {T : Types} (ng : AlertNG T) (id : Int) (user : SignedInUser)
    (skipCache : Bool) (s : St T) : Except T.Error T.Condition × St T :=
  ((ng.LoadAlertCondition id user skipCache s.world).1,
   { world := (ng.LoadAlertCondition id user skipCache s.world).2,
     trace := s.trace ++ [.LoadAlertCondition id user skipCache] })

/-- The call `cond.Execute(ctx, fromStr, toStr)`. -/
def callExecute {T : Types} (ng : AlertNG T) (cond : T.Condition) (ctx : AlertExecCtx)
    (fromStr toStr : String) (s : St T) : Except T.Error T.ExecutionResults × St T :=
  ((ng.Execute cond ctx fromStr toStr s.world).1,
   { world := (ng.Execute cond ctx fromStr toStr s.world).2,
     trace := s.trace ++ [.Execute cond ctx fromStr toStr] })

/-- The call `eval.EvaluateExecutionResult(execResult)`. -/
def callEvaluateExecutionResult {T : Types} (ng : AlertNG T) (execResult : T.ExecutionResults)
    (s : St T) : Except T.Error T.Results × St T :=
  (ng.EvaluateExecutionResult execResult, s.log (.EvaluateExecutionResult execResult))

/-- The call `evalResults.AsDataFrame()`. -/
def callAsDataFrame {T : Types} (ng : AlertNG T) (evalResults : T.Results) (s : St T) :
    T.Frame × St T :=
  (ng.AsDataFrame evalResults, s.log (.AsDataFrame evalResults))

/-- The call `ng.Bus.Dispatch(&query)`. -/
def callDispatch {T : Types} (ng : AlertNG T) (query : GetAlertDefinitionByIDQuery) (s : St T) :
    Except T.Error GetAlertDefinitionByIDQuery × St T :=
  ((ng.Dispatch query s.world).1,
   { world := (ng.Dispatch query s.world).2, trace := s.trace ++ [.Dispatch query] })

/-- The call `ng.DeleteAlertDefinitionByID(&query)`. -/
def callDeleteAlertDefinitionByID {T : Types} (ng : AlertNG T)
    (query : DeleteAlertDefinitionByIDQuery) (s : St T) :
    Except T.Error DeleteAlertDefinitionByIDQuery × St T :=
  ((ng.DeleteAlertDefinitionByID query s.world).1,
   { world := (ng.DeleteAlertDefinitionByID query s.world).2,
     trace := s.trace ++ [.DeleteAlertDefinitionByID query] })

/-- The call `ng.SaveAlertDefinition(&cmd)`. -/
def callSaveAlertDefinition {T : Types} (ng : AlertNG T) (cmd : SaveAlertDefinitionCommand T)
    (s : St T) : Except T.Error (SaveAlertDefinitionCommand T) × St T :=
  ((ng.SaveAlertDefinition cmd s.world).1,
   { world := (ng.SaveAlertDefinition cmd s.world).2,
     trace := s.trace ++ [.SaveAlertDefinition cmd] })

/-- The call `ng.GetAlertDefinitions(&cmd)`. -/
def callGetAlertDefinitions {T : Types} (ng : AlertNG T) (cmd : ListAlertDefinitionsCommand)
    (s : St T) : Except T.Error ListAlertDefinitionsCommand × St T :=
  ((ng.GetAlertDefinitions cmd s.world).1,
   { world := (ng.GetAlertDefinitions cmd s.world).2,
     trace := s.trace ++ [.GetAlertDefinitions cmd] })

/-- The call `df.Encoded()`. -/
def callEncoded {T : Types} (ng : AlertNG T) (df : DataFrames T) (s : St T) :
    Except T.Error T.Encoded × St T :=
  (ng.Encoded df, s.log (.Encoded df))

/-! ## The evaluation handlers -/

/-- The handler `ConditionEval` of `POST /api/alert-definitions/eval`, started in world `w`. -/
def ConditionEval {T : Types} (ng : AlertNG T) (c : ReqContext)
    (dto : EvalAlertConditionCommand T) (w : T.World) : Response T × St T :=
  match callWithTimeout ng ⟨w, []⟩ with
  | (alertCtx, s) =>
    let alertExecCtx : AlertExecCtx := { Ctx := alertCtx, SignedInUser := c.SignedInUser }
    let fromStr := if c.Query "from" = "" then "now-3h" else c.Query "from"
    let toStr := if c.Query "to" = "" then "now" else c.Query "to"
    match callExecute ng dto.Condition alertExecCtx fromStr toStr s with
    | (.error err, s) => (api.Error 400 "Failed to execute conditions" err, s.log .cancelFn)
    | (.ok execResult, s) =>
      match callEvaluateExecutionResult ng execResult s with
      | (.error err, s) => (api.Error 400 "Failed to evaluate results" err, s.log .cancelFn)
      | (.ok evalResults, s) =>
        match callAsDataFrame ng evalResults s with
        | (frame, s) =>
          let df : DataFrames T := tsdb.NewDecodedDataFrames [frame]
          match callEncoded ng df s with
          | (.error err, s) =>
            (api.Error 400 "Failed to encode result dataframes" err, s.log .cancelFn)
          | (.ok instances, s) =>
            (api.JSON 200 (.dynMap [("instances", .encoded instances)]), s.log .cancelFn)

/-- The handler `AlertDefinitionEval` of `GET /api/alert-definitions/eval/:alertDefinitionId`,
started in world `w`. -/
def AlertDefinitionEval {T : Types} (ng : AlertNG T) (c : ReqContext) (w : T.World) :
    Response T × St T :=
  let alertDefinitionID := c.ParamsInt64 ":alertDefinitionId"
  let fromStr := if c.Query "from" = "" then "now-3h" else c.Query "from"
  let toStr := if c.Query "to" = "" then "now" else c.Query "to"
  match callLoadAlertCondition ng alertDefinitionID c.SignedInUser c.SkipCache ⟨w, []⟩ with
  | (.error err, s) => (api.Error 400 "Failed to load conditions" err, s)
  | (.ok conditions, s) =>
    match callWithTimeout ng s with
    | (alertCtx, s) =>
      let alertExecCtx : AlertExecCtx := { Ctx := alertCtx, SignedInUser := c.SignedInUser }
      match callExecute ng conditions alertExecCtx fromStr toStr s with
      | (.error err, s) => (api.Error 400 "Failed to execute conditions" err, s.log .cancelFn)
      | (.ok execResult, s) =>
        match callEvaluateExecutionResult ng execResult s with
        | (.error err, s) => (api.Error 400 "Failed to evaluate results" err, s.log .cancelFn)
        | (.ok evalResults, s) =>
          match callAsDataFrame ng evalResults s with
          | (frame, s) =>
            let df : DataFrames T := tsdb.NewDecodedDataFrames [frame]
            match callEncoded ng df s with
            | (.error err, s) =>
              (api.Error 400 "Failed to encode result dataframes" err, s.log .cancelFn)
            | (.ok instances, s) =>
              (api.JSON 200 (.dynMap [("instances", .encoded instances)]), s.log .cancelFn)

/-! ## The definition handlers -/

/-- The handler `GetAlertDefinitionEndpoint` of `GET /api/alert-definitions/:alertDefinitionId`. -/
def GetAlertDefinitionEndpoint {T : Types} (ng : AlertNG T) (c : ReqContext) (w : T.World) :
    Response T × St T :=
  let alertDefinitionID := c.ParamsInt64 ":alertDefinitionId"
  let query : GetAlertDefinitionByIDQuery := { ID := alertDefinitionID }
  match callDispatch ng query ⟨w, []⟩ with
  | (.error err, s) => (api.Error 500 "Failed to get alert definition" err, s)
  | (.ok query, s) => (api.JSON 200 (.value (.definition query.Result)), s)

/-- The handler `DeleteAlertDefinitionEndpoint` of
`DELETE /api/alert-definitions/:alertDefinitionId`. -/
def DeleteAlertDefinitionEndpoint {T : Types} (ng : AlertNG T) (c : ReqContext) (w : T.World) :
    Response T × St T :=
  let alertDefinitionID := c.ParamsInt64 ":alertDefinitionId"
  let query : DeleteAlertDefinitionByIDQuery :=
    { ID := alertDefinitionID, OrgID := c.SignedInUser.OrgId }
  match callDeleteAlertDefinitionByID ng query ⟨w, []⟩ with
  | (.error err, s) => (api.Error 500 "Failed to delete alert definition" err, s)
  | (.ok query, s) => (api.JSON 200 (.dynMap [("affectedRows", .int query.RowsAffected)]), s)

/-- The handler `CreateAlertDefinitionEndpoint` of `POST /api/alert-definitions`. -/
def CreateAlertDefinitionEndpoint {T : Types} (ng : AlertNG T) (c : ReqContext)
    (cmd : SaveAlertDefinitionCommand T) (w : T.World) : Response T × St T :=
  let cmd := { cmd with OrgID := c.SignedInUser.OrgId }
  let cmd := { cmd with SignedInUser := some c.SignedInUser }
  let cmd := { cmd with SkipCache := c.SkipCache }
  match callSaveAlertDefinition ng cmd ⟨w, []⟩ with
  | (.error err, s) => (api.Error 500 "Failed to create alert definition" err, s)
  | (.ok cmd, s) => (api.JSON 200 (.dynMap [("id", .int cmd.Result.Id)]), s)

/-- The handler `ListAlertDefinitions` of `GET /api/alert-definitions`. -/
def ListAlertDefinitions {T : Types} (ng : AlertNG T) (c : ReqContext) (w : T.World) :
    Response T × St T :=
  let cmd : ListAlertDefinitionsCommand := { OrgID := c.SignedInUser.OrgId }
  match callGetAlertDefinitions ng cmd ⟨w, []⟩ with
  | (.error err, s) => (api.Error 500 "Failed to list alert definitions" err, s)
  | (.ok cmd, s) => (api.JSON 200 (.dynMap [("results", .definitions cmd.Result)]), s)

/-! ## Reading a trace -/

/-- Arguments of one `Execute` call. -/
structure ExecuteCall (T : Types) where
  cond : T.Condition
  ctx : AlertExecCtx
  fromStr : String
  toStr : String

/-- The `Execute` calls of a trace, in order. -/
def executeCalls {T : Types} (tr : List (Event T)) : List (ExecuteCall T) :=
  tr.filterMap fun
    | .Execute cond ctx fromStr toStr => some ⟨cond, ctx, fromStr, toStr⟩
    | _ => none

/-- The arguments of the `EvaluateExecutionResult` calls of a trace, in order. -/
def evaluateCalls {T : Types} (tr : List (Event T)) : List T.ExecutionResults :=
  tr.filterMap fun
    | .EvaluateExecutionResult execResult => some execResult
    | _ => none

/-- The receivers of the `Encoded` calls of a trace, in order. -/
def encodedCalls {T : Types} (tr : List (Event T)) : List (DataFrames T) :=
  tr.filterMap fun
    | .Encoded df => some df
    | _ => none

/-- Whether an event is the creation of the deadline-bound context. -/
def Event.isWithTimeout {T : Types} : Event T → Bool
  | .WithTimeout _ _ => true
  | _ => false

/-- Whether an event is a call to the definition lookup or to `Execute`. -/
def Event.isLookupOrExecute {T : Types} : Event T → Bool
  | .LoadAlertCondition _ _ _ => true
  | .Execute _ _ _ _ => true
  | _ => false

/-- The context creations of a trace, in order, as `(timeout, creation time)`. -/
def contextCalls {T : Types} (tr : List (Event T)) : List (Int × Int) :=
  tr.filterMap fun
    | .WithTimeout timeout created => some (timeout, created)
    | _ => none

/-- The commands passed to `SaveAlertDefinition` in a trace, in order. -/
def saveCalls {T : Types} (tr : List (Event T)) : List (SaveAlertDefinitionCommand T) :=
  tr.filterMap fun
    | .SaveAlertDefinition cmd => some cmd
    | _ => none

/-- Whether, reading the trace from its start, the deadline-bound context is created before
any call to the definition lookup or to `Execute`. -/
def callsAfterContext {T : Types} : List (Event T) → Bool
  | [] => true
  | e :: es => e.isWithTimeout || (!e.isLookupOrExecute && callsAfterContext es)

/-- The `from` expression a handler passes on for request `c`. -/
def fromStr (c : ReqContext) : String :=
  if c.Query "from" = "" then "now-3h" else c.Query "from"

/-- The `to` expression a handler passes on for request `c`. -/
def toStr (c : ReqContext) : String :=
  if c.Query "to" = "" then "now" else c.Query "to"

/-- The execution context a handler builds for request `c` when the clock reads `now`. -/
def execCtx {T : Types} (ng : AlertNG T) (c : ReqContext) (now : Int) : AlertExecCtx :=
  { Ctx := context.WithTimeout context.Background ng.AlertingEvaluationTimeout now,
    SignedInUser := c.SignedInUser }

/-! ## A concrete deployment, for evaluating the handlers -/

/-- Concrete types: the world is the clock reading; conditions, results and frames are numbers. -/
@[reducible] def sampleTypes : Types :=
  { World := Int, Condition := Nat, ExecutionResults := Nat, Results := Nat, Frame := Nat,
    Encoded := List Nat, Error := String, Payload := String }

/-- A deployment whose store holds definition 7 of organization 1 (condition 42).  The lookup
takes one tick and finds a definition only for its own organization; `Execute` takes two
ticks and fails on condition 13; evaluation fails on result 99; encoding fails on frame 500. -/
def sampleNG : AlertNG sampleTypes :=
  { now := fun w => w
    AlertingEvaluationTimeout := 30
    LoadAlertCondition := fun id user _ w =>
      (if id = 7 ∧ user.OrgId = 1 then .ok (42 : Nat) else .error "not found", w + 1)
    Execute := fun cond _ _ _ w =>
      (if cond = (13 : Nat) then .error "query failed" else .ok (cond + 1 : Nat), w + 2)
    EvaluateExecutionResult := fun r =>
      if r = (99 : Nat) then .error "malformed" else .ok (2 * r : Nat)
    AsDataFrame := fun r => (r + 100 : Nat)
    Encoded := fun df =>
      if df.decoded = [(500 : Nat)] then .error "cannot encode" else .ok (df.decoded : List Nat)
    Dispatch := fun q w =>
      (if q.ID = 7 then .ok { q with Result := ⟨7, 1⟩ } else .error "not found", w + 1)
    DeleteAlertDefinitionByID := fun q w =>
      (if q.ID = 7 ∧ q.OrgID = 1 then .ok { q with RowsAffected := 1 }
       else if q.ID < 0 then .error "bad id" else .ok q, w + 1)
    SaveAlertDefinition := fun cmd w =>
      (if cmd.Body = "" then .error "empty" else .ok { cmd with Result := ⟨8, cmd.OrgID⟩ }, w + 1)
    GetAlertDefinitions := fun cmd w =>
      (if cmd.OrgID = 1 then .ok { cmd with Result := [⟨7, 1⟩] }
       else if cmd.OrgID < 0 then .error "bad org" else .ok cmd, w + 1) }

/-- A request of a user of organization `org` for path id `id`, with the given `from` and
`to` query parameters and cache flag. -/
def sampleReq (org id : Int) (f t : String) (skip : Bool) : ReqContext :=
  { SignedInUser := ⟨5, org⟩
    SkipCache := skip
    Query := fun k => if k = "from" then f else if k = "to" then t else ""
    ParamsInt64 := fun k => if k = ":alertDefinitionId" then id else 0 }

/-! ## How the evaluation handlers run -/

section Runs

variable {T : Types}

theorem ConditionEval_execute_error (ng : AlertNG T) (c : ReqContext)
    (dto : EvalAlertConditionCommand T) (w : T.World) (err : T.Error)
    (h : (ng.Execute dto.Condition (execCtx ng c (ng.now w)) (fromStr c) (toStr c) w).1
      = .error err) :
    ConditionEval ng c dto w =
      (api.Error 400 "Failed to execute conditions" err,
       ⟨(ng.Execute dto.Condition (execCtx ng c (ng.now w)) (fromStr c) (toStr c) w).2,
        [.WithTimeout ng.AlertingEvaluationTimeout (ng.now w),
         .Execute dto.Condition (execCtx ng c (ng.now w)) (fromStr c) (toStr c),
         .cancelFn]⟩) := by
  simp only [execCtx, fromStr, toStr] at h
  simp [ConditionEval, callWithTimeout, callExecute, St.log, execCtx, fromStr, toStr, h]

theorem ConditionEval_evaluate_error (ng : AlertNG T) (c : ReqContext)
    (dto : EvalAlertConditionCommand T) (w : T.World) (execResult : T.ExecutionResults)
    (err : T.Error)
    (h : (ng.Execute dto.Condition (execCtx ng c (ng.now w)) (fromStr c) (toStr c) w).1
      = .ok execResult)
    (h2 : ng.EvaluateExecutionResult execResult = .error err) :
    ConditionEval ng c dto w =
      (api.Error 400 "Failed to evaluate results" err,
       ⟨(ng.Execute dto.Condition (execCtx ng c (ng.now w)) (fromStr c) (toStr c) w).2,
        [.WithTimeout ng.AlertingEvaluationTimeout (ng.now w),
         .Execute dto.Condition (execCtx ng c (ng.now w)) (fromStr c) (toStr c),
         .EvaluateExecutionResult execResult,
         .cancelFn]⟩) := by
  simp only [execCtx, fromStr, toStr] at h
  simp [ConditionEval, callWithTimeout, callExecute, callEvaluateExecutionResult, St.log,
    execCtx, fromStr, toStr, h, h2]

theorem ConditionEval_encode_error (ng : AlertNG T) (c : ReqContext)
    (dto : EvalAlertConditionCommand T) (w : T.World) (execResult : T.ExecutionResults)
    (evalResults : T.Results) (err : T.Error)
    (h : (ng.Execute dto.Condition (execCtx ng c (ng.now w)) (fromStr c) (toStr c) w).1
      = .ok execResult)
    (h2 : ng.EvaluateExecutionResult execResult = .ok evalResults)
    (h3 : ng.Encoded (tsdb.NewDecodedDataFrames [ng.AsDataFrame evalResults]) = .error err) :
    ConditionEval ng c dto w =
      (api.Error 400 "Failed to encode result dataframes" err,
       ⟨(ng.Execute dto.Condition (execCtx ng c (ng.now w)) (fromStr c) (toStr c) w).2,
        [.WithTimeout ng.AlertingEvaluationTimeout (ng.now w),
         .Execute dto.Condition (execCtx ng c (ng.now w)) (fromStr c) (toStr c),
         .EvaluateExecutionResult execResult,
         .AsDataFrame evalResults,
         .Encoded (tsdb.NewDecodedDataFrames [ng.AsDataFrame evalResults]),
         .cancelFn]⟩) := by
  simp only [execCtx, fromStr, toStr] at h
  simp [ConditionEval, callWithTimeout, callExecute, callEvaluateExecutionResult,
    callAsDataFrame, callEncoded, St.log, execCtx, fromStr, toStr, h, h2, h3]

theorem ConditionEval_ok (ng : AlertNG T) (c : ReqContext)
    (dto : EvalAlertConditionCommand T) (w : T.World) (execResult : T.ExecutionResults)
    (evalResults : T.Results) (instances : T.Encoded)
    (h : (ng.Execute dto.Condition (execCtx ng c (ng.now w)) (fromStr c) (toStr c) w).1
      = .ok execResult)
    (h2 : ng.EvaluateExecutionResult execResult = .ok evalResults)
    (h3 : ng.Encoded (tsdb.NewDecodedDataFrames [ng.AsDataFrame evalResults]) = .ok instances) :
    ConditionEval ng c dto w =
      (api.JSON 200 (.dynMap [("instances", .encoded instances)]),
       ⟨(ng.Execute dto.Condition (execCtx ng c (ng.now w)) (fromStr c) (toStr c) w).2,
        [.WithTimeout ng.AlertingEvaluationTimeout (ng.now w),
         .Execute dto.Condition (execCtx ng c (ng.now w)) (fromStr c) (toStr c),
         .EvaluateExecutionResult execResult,
         .AsDataFrame evalResults,
         .Encoded (tsdb.NewDecodedDataFrames [ng.AsDataFrame evalResults]),
         .cancelFn]⟩) := by
  simp only [execCtx, fromStr, toStr] at h
  simp [ConditionEval, callWithTimeout, callExecute, callEvaluateExecutionResult,
    callAsDataFrame, callEncoded, St.log, execCtx, fromStr, toStr, h, h2, h3]

theorem AlertDefinitionEval_load_error (ng : AlertNG T) (c : ReqContext) (w : T.World)
    (err : T.Error)
    (h : (ng.LoadAlertCondition (c.ParamsInt64 ":alertDefinitionId") c.SignedInUser
      c.SkipCache w).1 = .error err) :
    AlertDefinitionEval ng c w =
      (api.Error 400 "Failed to load conditions" err,
       ⟨(ng.LoadAlertCondition (c.ParamsInt64 ":alertDefinitionId") c.SignedInUser
          c.SkipCache w).2,
        [.LoadAlertCondition (c.ParamsInt64 ":alertDefinitionId") c.SignedInUser
          c.SkipCache]⟩) := by
  simp [AlertDefinitionEval, callLoadAlertCondition, h]

theorem AlertDefinitionEval_load_ok (ng : AlertNG T) (c : ReqContext) (w : T.World)
    (conditions : T.Condition)
    (h : (ng.LoadAlertCondition (c.ParamsInt64 ":alertDefinitionId") c.SignedInUser
      c.SkipCache w).1 = .ok conditions) :
    AlertDefinitionEval ng c w =
      ((ConditionEval ng c ⟨conditions⟩ (ng.LoadAlertCondition
          (c.ParamsInt64 ":alertDefinitionId") c.SignedInUser c.SkipCache w).2).1,
       ⟨(ConditionEval ng c ⟨conditions⟩ (ng.LoadAlertCondition
          (c.ParamsInt64 ":alertDefinitionId") c.SignedInUser c.SkipCache w).2).2.world,
        .LoadAlertCondition (c.ParamsInt64 ":alertDefinitionId") c.SignedInUser c.SkipCache ::
        (ConditionEval ng c ⟨conditions⟩ (ng.LoadAlertCondition
          (c.ParamsInt64 ":alertDefinitionId") c.SignedInUser c.SkipCache w).2).2.trace⟩) := by
  rcases hE : (ng.Execute conditions (execCtx ng c (ng.now (ng.LoadAlertCondition
      (c.ParamsInt64 ":alertDefinitionId") c.SignedInUser c.SkipCache w).2)) (fromStr c)
      (toStr c) (ng.LoadAlertCondition (c.ParamsInt64 ":alertDefinitionId") c.SignedInUser
      c.SkipCache w).2).1 with err | execResult
  · simp only [execCtx, fromStr, toStr] at hE
    simp [AlertDefinitionEval, ConditionEval, callLoadAlertCondition, callWithTimeout,
      callExecute, St.log, h, hE]
  · simp only [execCtx, fromStr, toStr] at hE
    rcases hV : ng.EvaluateExecutionResult execResult with err | evalResults
    · simp [AlertDefinitionEval, ConditionEval, callLoadAlertCondition, callWithTimeout,
        callExecute, callEvaluateExecutionResult, St.log, h, hE, hV]
    · rcases hD : ng.Encoded (tsdb.NewDecodedDataFrames [ng.AsDataFrame evalResults])
        with err | instances
      · simp [AlertDefinitionEval, ConditionEval, callLoadAlertCondition, callWithTimeout,
          callExecute, callEvaluateExecutionResult, callAsDataFrame, callEncoded, St.log,
          h, hE, hV, hD]
      · simp [AlertDefinitionEval, ConditionEval, callLoadAlertCondition, callWithTimeout,
          callExecute, callEvaluateExecutionResult, callAsDataFrame, callEncoded, St.log,
          h, hE, hV, hD]

/-- A run of `ConditionEval` ends in one of four ways; each fixes the response and the trace. -/
theorem ConditionEval_cases (ng : AlertNG T) (c : ReqContext)
    (dto : EvalAlertConditionCommand T) (w : T.World) :
    (∃ err, (ConditionEval ng c dto w).1 = api.Error 400 "Failed to execute conditions" err ∧
      (ConditionEval ng c dto w).2.trace =
        [.WithTimeout ng.AlertingEvaluationTimeout (ng.now w),
         .Execute dto.Condition (execCtx ng c (ng.now w)) (fromStr c) (toStr c),
         .cancelFn]) ∨
    (∃ execResult err,
      (ConditionEval ng c dto w).1 = api.Error 400 "Failed to evaluate results" err ∧
      (ConditionEval ng c dto w).2.trace =
        [.WithTimeout ng.AlertingEvaluationTimeout (ng.now w),
         .Execute dto.Condition (execCtx ng c (ng.now w)) (fromStr c) (toStr c),
         .EvaluateExecutionResult execResult,
         .cancelFn]) ∨
    (∃ execResult evalResults err,
      (ConditionEval ng c dto w).1 = api.Error 400 "Failed to encode result dataframes" err ∧
      (ConditionEval ng c dto w).2.trace =
        [.WithTimeout ng.AlertingEvaluationTimeout (ng.now w),
         .Execute dto.Condition (execCtx ng c (ng.now w)) (fromStr c) (toStr c),
         .EvaluateExecutionResult execResult,
         .AsDataFrame evalResults,
         .Encoded (tsdb.NewDecodedDataFrames [ng.AsDataFrame evalResults]),
         .cancelFn]) ∨
    (∃ execResult evalResults instances,
      (ConditionEval ng c dto w).1 =
        api.JSON 200 (.dynMap [("instances", .encoded instances)]) ∧
      (ConditionEval ng c dto w).2.trace =
        [.WithTimeout ng.AlertingEvaluationTimeout (ng.now w),
         .Execute dto.Condition (execCtx ng c (ng.now w)) (fromStr c) (toStr c),
         .EvaluateExecutionResult execResult,
         .AsDataFrame evalResults,
         .Encoded (tsdb.NewDecodedDataFrames [ng.AsDataFrame evalResults]),
         .cancelFn]) := by
  rcases hE : (ng.Execute dto.Condition (execCtx ng c (ng.now w)) (fromStr c) (toStr c) w).1
    with err | execResult
  · exact Or.inl ⟨err, by rw [ConditionEval_execute_error ng c dto w err hE]; exact ⟨rfl, rfl⟩⟩
  · rcases hV : ng.EvaluateExecutionResult execResult with err | evalResults
    · exact Or.inr (Or.inl ⟨execResult, err, by
        rw [ConditionEval_evaluate_error ng c dto w execResult err hE hV]; exact ⟨rfl, rfl⟩⟩)
    · rcases hD : ng.Encoded (tsdb.NewDecodedDataFrames [ng.AsDataFrame evalResults])
        with err | instances
      · exact Or.inr (Or.inr (Or.inl ⟨execResult, evalResults, err, by
          rw [ConditionEval_encode_error ng c dto w execResult evalResults err hE hV hD]
          exact ⟨rfl, rfl⟩⟩))
      · exact Or.inr (Or.inr (Or.inr ⟨execResult, evalResults, instances, by
          rw [ConditionEval_ok ng c dto w execResult evalResults instances hE hV hD]
          exact ⟨rfl, rfl⟩⟩))

theorem executeCalls_ConditionEval (ng : AlertNG T) (c : ReqContext)
    (dto : EvalAlertConditionCommand T) (w : T.World) :
    executeCalls (ConditionEval ng c dto w).2.trace =
      [⟨dto.Condition, execCtx ng c (ng.now w), fromStr c, toStr c⟩] := by
  rcases ConditionEval_cases ng c dto w with ⟨_, _, h⟩ | ⟨_, _, _, h⟩ | ⟨_, _, _, _, h⟩ |
    ⟨_, _, _, _, h⟩ <;> simp [h, executeCalls]

theorem evaluateCalls_ConditionEval_le (ng : AlertNG T) (c : ReqContext)
    (dto : EvalAlertConditionCommand T) (w : T.World) :
    (evaluateCalls (ConditionEval ng c dto w).2.trace).length ≤ 1 := by
  rcases ConditionEval_cases ng c dto w with ⟨_, _, h⟩ | ⟨_, _, _, h⟩ | ⟨_, _, _, _, h⟩ |
    ⟨_, _, _, _, h⟩ <;> simp [h, evaluateCalls]

theorem encodedCalls_ConditionEval_le (ng : AlertNG T) (c : ReqContext)
    (dto : EvalAlertConditionCommand T) (w : T.World) :
    (encodedCalls (ConditionEval ng c dto w).2.trace).length ≤ 1 := by
  rcases ConditionEval_cases ng c dto w with ⟨_, _, h⟩ | ⟨_, _, _, h⟩ | ⟨_, _, _, _, h⟩ |
    ⟨_, _, _, _, h⟩ <;> simp [h, encodedCalls]

theorem callsAfterContext_ConditionEval (ng : AlertNG T) (c : ReqContext)
    (dto : EvalAlertConditionCommand T) (w : T.World) :
    callsAfterContext (ConditionEval ng c dto w).2.trace = true := by
  rcases ConditionEval_cases ng c dto w with ⟨_, _, h⟩ | ⟨_, _, _, h⟩ | ⟨_, _, _, _, h⟩ |
    ⟨_, _, _, _, h⟩ <;> simp [h, callsAfterContext, Event.isWithTimeout]

/-- The response of `ConditionEval` depends on the request only through its `from` and `to`
query parameters and its signed-in user. -/
theorem ConditionEval_congr (ng : AlertNG T) (c c' : ReqContext)
    (dto : EvalAlertConditionCommand T) (w : T.World)
    (hfrom : c'.Query "from" = c.Query "from") (hto : c'.Query "to" = c.Query "to")
    (huser : c'.SignedInUser = c.SignedInUser) :
    ConditionEval ng c' dto w = ConditionEval ng c dto w := by
  unfold ConditionEval
  rw [hfrom, hto, huser]

/-- The predicate `callsAfterContext` says that every lookup or `Execute` call of the trace
has a context creation somewhere before it. -/
theorem callsAfterContext_iff (tr : List (Event T)) :
    callsAfterContext tr = true ↔
      ∀ pre e post, tr = pre ++ e :: post → e.isLookupOrExecute = true →
        ∃ x ∈ pre, x.isWithTimeout = true := by
  induction tr with
  | nil =>
    simp [callsAfterContext]
  | cons a tr ih =>
    simp only [callsAfterContext, Bool.or_eq_true, Bool.and_eq_true, Bool.not_eq_true', ih]
    constructor
    · rintro (ha | ⟨ha, hrest⟩) pre e post hsplit he
      · rcases pre with _ | ⟨p, pre⟩
        · simp only [List.nil_append, List.cons.injEq] at hsplit
          rcases hsplit with ⟨rfl, -⟩
          cases a <;> simp_all [Event.isWithTimeout, Event.isLookupOrExecute]
        · simp only [List.cons_append, List.cons.injEq] at hsplit
          rcases hsplit with ⟨rfl, -⟩
          exact ⟨a, by simp, ha⟩
      · rcases pre with _ | ⟨p, pre⟩
        · simp only [List.nil_append, List.cons.injEq] at hsplit
          rcases hsplit with ⟨rfl, -⟩
          simp_all
        · simp only [List.cons_append, List.cons.injEq] at hsplit
          rcases hsplit with ⟨rfl, rfl⟩
          obtain ⟨x, hx, hx'⟩ := hrest pre e post rfl he
          exact ⟨x, by simp [hx], hx'⟩
    · intro h
      by_cases ha : a.isWithTimeout = true
      · exact Or.inl ha
      · right
        refine ⟨?_, ?_⟩
        · by_contra hne
          simp only [Bool.not_eq_false] at hne
          obtain ⟨x, hx, -⟩ := h [] a tr rfl hne
          simp at hx
        · intro pre e post hsplit he
          obtain ⟨x, hx, hx'⟩ := h (a :: pre) e post (by simp [hsplit]) he
          simp only [List.mem_cons] at hx
          rcases hx with rfl | hx
          · exact absurd hx' ha
          · exact ⟨x, hx, hx'⟩

end Runs

/-! ## Properties of the evaluation handlers -/

section Properties

variable {T : Types}

/-- C2: `ConditionEval` answers 200 exactly when `Execute`, `EvaluateExecutionResult` and the
frame encoding all succeed, each stage consuming the output of the one before; in that case
the body is the map with the single key "instances", holding the encoding of the single
frame `AsDataFrame(EvaluateExecutionResult(Execute(...)))`. -/
theorem ConditionEval_ok_iff_pipeline (ng : AlertNG T) (c : ReqContext)
    (dto : EvalAlertConditionCommand T) (w : T.World) :
    ((ConditionEval ng c dto w).1.status = 200 ↔
      ∃ execResult evalResults instances,
        (ng.Execute dto.Condition (execCtx ng c (ng.now w)) (fromStr c) (toStr c) w).1
          = .ok execResult ∧
        ng.EvaluateExecutionResult execResult = .ok evalResults ∧
        ng.Encoded (tsdb.NewDecodedDataFrames [ng.AsDataFrame evalResults]) = .ok instances) ∧
    (∀ execResult evalResults instances,
      (ng.Execute dto.Condition (execCtx ng c (ng.now w)) (fromStr c) (toStr c) w).1
        = .ok execResult →
      ng.EvaluateExecutionResult execResult = .ok evalResults →
      ng.Encoded (tsdb.NewDecodedDataFrames [ng.AsDataFrame evalResults]) = .ok instances →
      (ConditionEval ng c dto w).1 =
        api.JSON 200 (.dynMap [("instances", .encoded instances)]) ∧
      (ConditionEval ng c dto w).1.keys = ["instances"] ∧
      evaluateCalls (ConditionEval ng c dto w).2.trace = [execResult] ∧
      encodedCalls (ConditionEval ng c dto w).2.trace =
        [tsdb.NewDecodedDataFrames [ng.AsDataFrame evalResults]]) := by
  refine ⟨?_, ?_⟩
  · rcases hE : (ng.Execute dto.Condition (execCtx ng c (ng.now w)) (fromStr c) (toStr c) w).1
      with err | execResult
    · rw [ConditionEval_execute_error ng c dto w err hE]
      simp [api.Error, Response.status]
    · rcases hV : ng.EvaluateExecutionResult execResult with err | evalResults
      · rw [ConditionEval_evaluate_error ng c dto w execResult err hE hV]
        simp [api.Error, Response.status, hV]
      · rcases hD : ng.Encoded (tsdb.NewDecodedDataFrames [ng.AsDataFrame evalResults])
          with err | instances
        · rw [ConditionEval_encode_error ng c dto w execResult evalResults err hE hV hD]
          simp [api.Error, Response.status, hV, hD]
        · rw [ConditionEval_ok ng c dto w execResult evalResults instances hE hV hD]
          simp [api.JSON, Response.status, hV, hD]
  · intro execResult evalResults instances hE hV hD
    rw [ConditionEval_ok ng c dto w execResult evalResults instances hE hV hD]
    simp [api.JSON, Response.keys, evaluateCalls, encodedCalls]

/-- Witness of C2: for condition 42 every stage succeeds and the body is the one-key map. -/
theorem ConditionEval_ok_iff_pipeline_witness :
    (ConditionEval sampleNG (sampleReq 1 0 "" "" false) ⟨(42 : Nat)⟩ (1000 : Int)).1 =
        api.JSON 200 (.dynMap [("instances", .encoded [(186 : Nat)])]) ∧
      (ConditionEval sampleNG (sampleReq 1 0 "" "" false) ⟨(42 : Nat)⟩ (1000 : Int)).1.keys =
        ["instances"] ∧
      evaluateCalls (ConditionEval sampleNG (sampleReq 1 0 "" "" false) ⟨(42 : Nat)⟩
        (1000 : Int)).2.trace = [(43 : Nat)] ∧
      encodedCalls (ConditionEval sampleNG (sampleReq 1 0 "" "" false) ⟨(42 : Nat)⟩
        (1000 : Int)).2.trace = [tsdb.NewDecodedDataFrames [(186 : Nat)]] :=
  (ConditionEval_ok_iff_pipeline sampleNG (sampleReq 1 0 "" "" false) ⟨(42 : Nat)⟩
    (1000 : Int)).2 (43 : Nat) (86 : Nat) [(186 : Nat)] rfl rfl rfl

/-- C3: in `AlertDefinitionEval` a condition is executed only after the lookup
`LoadAlertCondition`, made for the request's signed-in user, has succeeded.  If the lookup
fails the handler answers 400 "Failed to load conditions" with the lookup's error and calls
neither `Execute` nor `EvaluateExecutionResult` nor the encoder; if it succeeds the lookup is
the first call and `Execute` is called once, on exactly the condition the lookup returned. -/
theorem lookup_gates_execution (ng : AlertNG T) (c : ReqContext) (w : T.World) :
    (∀ err,
      (ng.LoadAlertCondition (c.ParamsInt64 ":alertDefinitionId") c.SignedInUser
        c.SkipCache w).1 = .error err →
      (AlertDefinitionEval ng c w).1 = api.Error 400 "Failed to load conditions" err ∧
      (AlertDefinitionEval ng c w).1.status = 400 ∧
      (AlertDefinitionEval ng c w).2.trace =
        [.LoadAlertCondition (c.ParamsInt64 ":alertDefinitionId") c.SignedInUser c.SkipCache] ∧
      executeCalls (AlertDefinitionEval ng c w).2.trace = [] ∧
      evaluateCalls (AlertDefinitionEval ng c w).2.trace = [] ∧
      encodedCalls (AlertDefinitionEval ng c w).2.trace = []) ∧
    (∀ conditions,
      (ng.LoadAlertCondition (c.ParamsInt64 ":alertDefinitionId") c.SignedInUser
        c.SkipCache w).1 = .ok conditions →
      (executeCalls (AlertDefinitionEval ng c w).2.trace).map (fun e => e.cond) = [conditions] ∧
      (AlertDefinitionEval ng c w).2.trace.head? =
        some (.LoadAlertCondition (c.ParamsInt64 ":alertDefinitionId") c.SignedInUser
          c.SkipCache)) ∧
    (∀ e ∈ executeCalls (AlertDefinitionEval ng c w).2.trace,
      (ng.LoadAlertCondition (c.ParamsInt64 ":alertDefinitionId") c.SignedInUser
        c.SkipCache w).1 = .ok e.cond) := by
  refine ⟨?_, ?_, ?_⟩
  · intro err hL
    rw [AlertDefinitionEval_load_error ng c w err hL]
    simp [api.Error, Response.status, executeCalls, evaluateCalls, encodedCalls]
  · intro conditions hL
    rw [AlertDefinitionEval_load_ok ng c w conditions hL]
    simp only [executeCalls, List.filterMap_cons]
    rw [← executeCalls, executeCalls_ConditionEval]
    simp
  · intro e he
    rcases hL : (ng.LoadAlertCondition (c.ParamsInt64 ":alertDefinitionId") c.SignedInUser
      c.SkipCache w).1 with err | conditions
    · rw [AlertDefinitionEval_load_error ng c w err hL] at he
      simp [executeCalls] at he
    · rw [AlertDefinitionEval_load_ok ng c w conditions hL] at he
      simp only [executeCalls, List.filterMap_cons] at he
      rw [← executeCalls, executeCalls_ConditionEval] at he
      simp only [List.mem_singleton] at he
      subst he
      rfl

/-- Witness of C3: a user of organization 2 asks for definition 7 of organization 1; the
lookup fails and nothing is executed. -/
theorem lookup_gates_execution_witness :
    (AlertDefinitionEval sampleNG (sampleReq 2 7 "" "" false) (1000 : Int)).1 =
        api.Error 400 "Failed to load conditions" "not found" ∧
      (AlertDefinitionEval sampleNG (sampleReq 2 7 "" "" false) (1000 : Int)).1.status = 400 ∧
      (AlertDefinitionEval sampleNG (sampleReq 2 7 "" "" false) (1000 : Int)).2.trace =
        [.LoadAlertCondition 7 ⟨5, 2⟩ false] ∧
      executeCalls (AlertDefinitionEval sampleNG (sampleReq 2 7 "" "" false)
        (1000 : Int)).2.trace = [] ∧
      evaluateCalls (AlertDefinitionEval sampleNG (sampleReq 2 7 "" "" false)
        (1000 : Int)).2.trace = [] ∧
      encodedCalls (AlertDefinitionEval sampleNG (sampleReq 2 7 "" "" false)
        (1000 : Int)).2.trace = [] :=
  (lookup_gates_execution sampleNG (sampleReq 2 7 "" "" false) (1000 : Int)).1 "not found" rfl

/-- C7: in both eval handlers failures are surfaced without retry and without partial
results.  `Execute`, `EvaluateExecutionResult` and the encoder are each called at most once
per request.  The first stage that fails fixes the response: status 400 with the message
"Failed to execute conditions", "Failed to evaluate results" or "Failed to encode result
dataframes", carrying that stage's error, and no later stage is called.  A response whose
status is not 200 has no "instances" payload. -/
theorem failures_surface_without_retry (ng : AlertNG T) (c : ReqContext)
    (dto : EvalAlertConditionCommand T) (w : T.World) :
    ((executeCalls (ConditionEval ng c dto w).2.trace).length ≤ 1 ∧
      (evaluateCalls (ConditionEval ng c dto w).2.trace).length ≤ 1 ∧
      (encodedCalls (ConditionEval ng c dto w).2.trace).length ≤ 1 ∧
      (executeCalls (AlertDefinitionEval ng c w).2.trace).length ≤ 1 ∧
      (evaluateCalls (AlertDefinitionEval ng c w).2.trace).length ≤ 1 ∧
      (encodedCalls (AlertDefinitionEval ng c w).2.trace).length ≤ 1) ∧
    (∀ err,
      (ng.Execute dto.Condition (execCtx ng c (ng.now w)) (fromStr c) (toStr c) w).1
        = .error err →
      (ConditionEval ng c dto w).1 = api.Error 400 "Failed to execute conditions" err ∧
      evaluateCalls (ConditionEval ng c dto w).2.trace = [] ∧
      encodedCalls (ConditionEval ng c dto w).2.trace = []) ∧
    (∀ execResult err,
      (ng.Execute dto.Condition (execCtx ng c (ng.now w)) (fromStr c) (toStr c) w).1
        = .ok execResult →
      ng.EvaluateExecutionResult execResult = .error err →
      (ConditionEval ng c dto w).1 = api.Error 400 "Failed to evaluate results" err ∧
      encodedCalls (ConditionEval ng c dto w).2.trace = []) ∧
    (∀ execResult evalResults err,
      (ng.Execute dto.Condition (execCtx ng c (ng.now w)) (fromStr c) (toStr c) w).1
        = .ok execResult →
      ng.EvaluateExecutionResult execResult = .ok evalResults →
      ng.Encoded (tsdb.NewDecodedDataFrames [ng.AsDataFrame evalResults]) = .error err →
      (ConditionEval ng c dto w).1 =
        api.Error 400 "Failed to encode result dataframes" err) ∧
    (∀ conditions,
      (ng.LoadAlertCondition (c.ParamsInt64 ":alertDefinitionId") c.SignedInUser
        c.SkipCache w).1 = .ok conditions →
      (∀ err,
        (ng.Execute conditions
          (execCtx ng c (ng.now (ng.LoadAlertCondition (c.ParamsInt64 ":alertDefinitionId")
            c.SignedInUser c.SkipCache w).2)) (fromStr c) (toStr c)
          (ng.LoadAlertCondition (c.ParamsInt64 ":alertDefinitionId")
            c.SignedInUser c.SkipCache w).2).1 = .error err →
        (AlertDefinitionEval ng c w).1 = api.Error 400 "Failed to execute conditions" err ∧
        evaluateCalls (AlertDefinitionEval ng c w).2.trace = [] ∧
        encodedCalls (AlertDefinitionEval ng c w).2.trace = []) ∧
      (∀ execResult err,
        (ng.Execute conditions
          (execCtx ng c (ng.now (ng.LoadAlertCondition (c.ParamsInt64 ":alertDefinitionId")
            c.SignedInUser c.SkipCache w).2)) (fromStr c) (toStr c)
          (ng.LoadAlertCondition (c.ParamsInt64 ":alertDefinitionId")
            c.SignedInUser c.SkipCache w).2).1 = .ok execResult →
        ng.EvaluateExecutionResult execResult = .error err →
        (AlertDefinitionEval ng c w).1 = api.Error 400 "Failed to evaluate results" err ∧
        encodedCalls (AlertDefinitionEval ng c w).2.trace = []) ∧
      (∀ execResult evalResults err,
        (ng.Execute conditions
          (execCtx ng c (ng.now (ng.LoadAlertCondition (c.ParamsInt64 ":alertDefinitionId")
            c.SignedInUser c.SkipCache w).2)) (fromStr c) (toStr c)
          (ng.LoadAlertCondition (c.ParamsInt64 ":alertDefinitionId")
            c.SignedInUser c.SkipCache w).2).1 = .ok execResult →
        ng.EvaluateExecutionResult execResult = .ok evalResults →
        ng.Encoded (tsdb.NewDecodedDataFrames [ng.AsDataFrame evalResults]) = .error err →
        (AlertDefinitionEval ng c w).1 =
          api.Error 400 "Failed to encode result dataframes" err)) ∧
    ((ConditionEval ng c dto w).1.status ≠ 200 →
      (ConditionEval ng c dto w).1.payload "instances" = none) ∧
    ((AlertDefinitionEval ng c w).1.status ≠ 200 →
      (AlertDefinitionEval ng c w).1.payload "instances" = none) := by
  have hCE : ∀ (dto : EvalAlertConditionCommand T) (w : T.World),
      (∀ err,
        (ng.Execute dto.Condition (execCtx ng c (ng.now w)) (fromStr c) (toStr c) w).1
          = .error err →
        (ConditionEval ng c dto w).1 = api.Error 400 "Failed to execute conditions" err ∧
        evaluateCalls (ConditionEval ng c dto w).2.trace = [] ∧
        encodedCalls (ConditionEval ng c dto w).2.trace = []) ∧
      (∀ execResult err,
        (ng.Execute dto.Condition (execCtx ng c (ng.now w)) (fromStr c) (toStr c) w).1
          = .ok execResult →
        ng.EvaluateExecutionResult execResult = .error err →
        (ConditionEval ng c dto w).1 = api.Error 400 "Failed to evaluate results" err ∧
        encodedCalls (ConditionEval ng c dto w).2.trace = []) ∧
      (∀ execResult evalResults err,
        (ng.Execute dto.Condition (execCtx ng c (ng.now w)) (fromStr c) (toStr c) w).1
          = .ok execResult →
        ng.EvaluateExecutionResult execResult = .ok evalResults →
        ng.Encoded (tsdb.NewDecodedDataFrames [ng.AsDataFrame evalResults]) = .error err →
        (ConditionEval ng c dto w).1 =
          api.Error 400 "Failed to encode result dataframes" err) := by
    intro dto w
    refine ⟨?_, ?_, ?_⟩
    · intro err hE
      rw [ConditionEval_execute_error ng c dto w err hE]
      simp [evaluateCalls, encodedCalls]
    · intro execResult err hE hV
      rw [ConditionEval_evaluate_error ng c dto w execResult err hE hV]
      simp [encodedCalls]
    · intro execResult evalResults err hE hV hD
      rw [ConditionEval_encode_error ng c dto w execResult evalResults err hE hV hD]
  have hPay : ∀ (dto : EvalAlertConditionCommand T) (w : T.World),
      (ConditionEval ng c dto w).1.status ≠ 200 →
      (ConditionEval ng c dto w).1.payload "instances" = none := by
    intro dto w
    rcases ConditionEval_cases ng c dto w with ⟨_, h, _⟩ | ⟨_, _, h, _⟩ | ⟨_, _, _, h, _⟩ |
      ⟨_, _, _, h, _⟩ <;> simp [h, api.Error, api.JSON, Response.status, Response.payload]
  refine ⟨⟨?_, ?_, ?_, ?_, ?_, ?_⟩, (hCE dto w).1, (hCE dto w).2.1, (hCE dto w).2.2, ?_,
    hPay dto w, ?_⟩
  · simp [executeCalls_ConditionEval]
  · exact evaluateCalls_ConditionEval_le ng c dto w
  · exact encodedCalls_ConditionEval_le ng c dto w
  · rcases hL : (ng.LoadAlertCondition (c.ParamsInt64 ":alertDefinitionId") c.SignedInUser
      c.SkipCache w).1 with err | conditions
    · rw [AlertDefinitionEval_load_error ng c w err hL]
      simp [executeCalls]
    · rw [AlertDefinitionEval_load_ok ng c w conditions hL]
      simp only [executeCalls, List.filterMap_cons]
      rw [← executeCalls, executeCalls_ConditionEval]
      simp
  · rcases hL : (ng.LoadAlertCondition (c.ParamsInt64 ":alertDefinitionId") c.SignedInUser
      c.SkipCache w).1 with err | conditions
    · rw [AlertDefinitionEval_load_error ng c w err hL]
      simp [evaluateCalls]
    · rw [AlertDefinitionEval_load_ok ng c w conditions hL]
      simp only [evaluateCalls, List.filterMap_cons]
      rw [← evaluateCalls]
      exact evaluateCalls_ConditionEval_le ng c _ _
  · rcases hL : (ng.LoadAlertCondition (c.ParamsInt64 ":alertDefinitionId") c.SignedInUser
      c.SkipCache w).1 with err | conditions
    · rw [AlertDefinitionEval_load_error ng c w err hL]
      simp [encodedCalls]
    · rw [AlertDefinitionEval_load_ok ng c w conditions hL]
      simp only [encodedCalls, List.filterMap_cons]
      rw [← encodedCalls]
      exact encodedCalls_ConditionEval_le ng c _ _
  · intro conditions hL
    rw [AlertDefinitionEval_load_ok ng c w conditions hL]
    simp only [evaluateCalls, encodedCalls, List.filterMap_cons]
    rw [← evaluateCalls, ← encodedCalls]
    exact hCE ⟨conditions⟩ _
  · rcases hL : (ng.LoadAlertCondition (c.ParamsInt64 ":alertDefinitionId") c.SignedInUser
      c.SkipCache w).1 with err | conditions
    · rw [AlertDefinitionEval_load_error ng c w err hL]
      simp [api.Error, Response.payload]
    · rw [AlertDefinitionEval_load_ok ng c w conditions hL]
      exact hPay ⟨conditions⟩ _

/-- Witness of C7: evaluation fails on result 99 (condition 98); `ConditionEval` answers 400
"Failed to evaluate results" with that error and never calls the encoder. -/
theorem failures_surface_without_retry_witness :
    (ConditionEval sampleNG (sampleReq 1 0 "" "" false) ⟨(98 : Nat)⟩ (1000 : Int)).1 =
        api.Error 400 "Failed to evaluate results" "malformed" ∧
      encodedCalls (ConditionEval sampleNG (sampleReq 1 0 "" "" false) ⟨(98 : Nat)⟩
        (1000 : Int)).2.trace = [] :=
  (failures_surface_without_retry sampleNG (sampleReq 1 0 "" "" false) ⟨(98 : Nat)⟩
    (1000 : Int)).2.2.1 (99 : Nat) "malformed" rfl rfl

/-- C9: when the lookup of `AlertDefinitionEval` succeeds with condition `conditions`, its
response is the response of `ConditionEval` for an inline command holding that condition,
with the same `from` and `to` query parameters, the same signed-in user and the same
collaborators, run in the world the lookup leaves; the calls made after the lookup are the
calls of that `ConditionEval` run. -/
theorem AlertDefinitionEval_is_ConditionEval_on_lookup (ng : AlertNG T) (c c' : ReqContext)
    (dto : EvalAlertConditionCommand T) (w : T.World) (conditions : T.Condition)
    (hload : (ng.LoadAlertCondition (c.ParamsInt64 ":alertDefinitionId") c.SignedInUser
      c.SkipCache w).1 = .ok conditions)
    (hdto : dto.Condition = conditions)
    (hfrom : c'.Query "from" = c.Query "from") (hto : c'.Query "to" = c.Query "to")
    (huser : c'.SignedInUser = c.SignedInUser) :
    (AlertDefinitionEval ng c w).1 =
      (ConditionEval ng c' dto (ng.LoadAlertCondition (c.ParamsInt64 ":alertDefinitionId")
        c.SignedInUser c.SkipCache w).2).1 ∧
    (AlertDefinitionEval ng c w).2.world =
      (ConditionEval ng c' dto (ng.LoadAlertCondition (c.ParamsInt64 ":alertDefinitionId")
        c.SignedInUser c.SkipCache w).2).2.world ∧
    (AlertDefinitionEval ng c w).2.trace =
      .LoadAlertCondition (c.ParamsInt64 ":alertDefinitionId") c.SignedInUser c.SkipCache ::
        (ConditionEval ng c' dto (ng.LoadAlertCondition (c.ParamsInt64 ":alertDefinitionId")
          c.SignedInUser c.SkipCache w).2).2.trace ∧
    ((ng.LoadAlertCondition (c.ParamsInt64 ":alertDefinitionId") c.SignedInUser
        c.SkipCache w).2 = w →
      (AlertDefinitionEval ng c w).1 = (ConditionEval ng c' dto w).1) := by
  cases dto with
  | mk cond =>
    simp only at hdto
    subst hdto
    rw [AlertDefinitionEval_load_ok ng c w cond hload,
      ConditionEval_congr ng c c' ⟨cond⟩ _ hfrom hto huser]
    refine ⟨rfl, rfl, rfl, ?_⟩
    intro hw
    rw [hw, ConditionEval_congr ng c c' ⟨cond⟩ _ hfrom hto huser]

/-- Witness of C9: the GET request for definition 7 and a POST request of the same user with
inline condition 42 and the same window, started when the lookup has finished. -/
theorem AlertDefinitionEval_is_ConditionEval_on_lookup_witness :
    (AlertDefinitionEval sampleNG (sampleReq 1 7 "now-6h" "" true) (1000 : Int)).1 =
        (ConditionEval sampleNG (sampleReq 1 0 "now-6h" "" false) ⟨(42 : Nat)⟩ (1001 : Int)).1 ∧
      (AlertDefinitionEval sampleNG (sampleReq 1 7 "now-6h" "" true) (1000 : Int)).2.world =
        (ConditionEval sampleNG (sampleReq 1 0 "now-6h" "" false) ⟨(42 : Nat)⟩
          (1001 : Int)).2.world ∧
      (AlertDefinitionEval sampleNG (sampleReq 1 7 "now-6h" "" true) (1000 : Int)).2.trace =
        .LoadAlertCondition 7 ⟨5, 1⟩ true ::
          (ConditionEval sampleNG (sampleReq 1 0 "now-6h" "" false) ⟨(42 : Nat)⟩
            (1001 : Int)).2.trace :=
  ⟨(AlertDefinitionEval_is_ConditionEval_on_lookup sampleNG (sampleReq 1 7 "now-6h" "" true)
      (sampleReq 1 0 "now-6h" "" false) ⟨(42 : Nat)⟩ (1000 : Int) (42 : Nat)
      rfl rfl rfl rfl rfl).1,
   (AlertDefinitionEval_is_ConditionEval_on_lookup sampleNG (sampleReq 1 7 "now-6h" "" true)
      (sampleReq 1 0 "now-6h" "" false) ⟨(42 : Nat)⟩ (1000 : Int) (42 : Nat)
      rfl rfl rfl rfl rfl).2.1,
   (AlertDefinitionEval_is_ConditionEval_on_lookup sampleNG (sampleReq 1 7 "now-6h" "" true)
      (sampleReq 1 0 "now-6h" "" false) ⟨(42 : Nat)⟩ (1000 : Int) (42 : Nat)
      rfl rfl rfl rfl rfl).2.2.1⟩

/-- C8, as the code has it: `ConditionEval` creates the deadline-bound context first, so all
its calls come after it.  `AlertDefinitionEval` calls the lookup `LoadAlertCondition` first,
before any context exists, and creates the context only when the lookup has succeeded; every
call after the lookup, `Execute` among them, comes after the context creation.  When the
lookup fails no context is created at all. -/
theorem context_precedes_execute (ng : AlertNG T) (c : ReqContext)
    (dto : EvalAlertConditionCommand T) (w : T.World) :
    callsAfterContext (ConditionEval ng c dto w).2.trace = true ∧
    (ConditionEval ng c dto w).2.trace.head? =
      some (.WithTimeout ng.AlertingEvaluationTimeout (ng.now w)) ∧
    (AlertDefinitionEval ng c w).2.trace.head? =
      some (.LoadAlertCondition (c.ParamsInt64 ":alertDefinitionId") c.SignedInUser
        c.SkipCache) ∧
    callsAfterContext (AlertDefinitionEval ng c w).2.trace = false ∧
    callsAfterContext (AlertDefinitionEval ng c w).2.trace.tail = true ∧
    (∀ err,
      (ng.LoadAlertCondition (c.ParamsInt64 ":alertDefinitionId") c.SignedInUser
        c.SkipCache w).1 = .error err →
      contextCalls (AlertDefinitionEval ng c w).2.trace = []) ∧
    (∀ conditions,
      (ng.LoadAlertCondition (c.ParamsInt64 ":alertDefinitionId") c.SignedInUser
        c.SkipCache w).1 = .ok conditions →
      (AlertDefinitionEval ng c w).2.trace.tail.head? =
        some (.WithTimeout ng.AlertingEvaluationTimeout
          (ng.now (ng.LoadAlertCondition (c.ParamsInt64 ":alertDefinitionId") c.SignedInUser
            c.SkipCache w).2))) := by
  have hhead : ∀ (dto : EvalAlertConditionCommand T) (w : T.World),
      (ConditionEval ng c dto w).2.trace.head? =
        some (.WithTimeout ng.AlertingEvaluationTimeout (ng.now w)) := by
    intro dto w
    rcases ConditionEval_cases ng c dto w with ⟨_, _, h⟩ | ⟨_, _, _, h⟩ | ⟨_, _, _, _, h⟩ |
      ⟨_, _, _, _, h⟩ <;> simp [h]
  refine ⟨callsAfterContext_ConditionEval ng c dto w, hhead dto w, ?_, ?_, ?_, ?_, ?_⟩
  · rcases hL : (ng.LoadAlertCondition (c.ParamsInt64 ":alertDefinitionId") c.SignedInUser
      c.SkipCache w).1 with err | conditions
    · rw [AlertDefinitionEval_load_error ng c w err hL]
      simp
    · rw [AlertDefinitionEval_load_ok ng c w conditions hL]
      simp
  · rcases hL : (ng.LoadAlertCondition (c.ParamsInt64 ":alertDefinitionId") c.SignedInUser
      c.SkipCache w).1 with err | conditions
    · rw [AlertDefinitionEval_load_error ng c w err hL]
      simp [callsAfterContext, Event.isWithTimeout, Event.isLookupOrExecute]
    · rw [AlertDefinitionEval_load_ok ng c w conditions hL]
      simp [callsAfterContext, Event.isWithTimeout, Event.isLookupOrExecute]
  · rcases hL : (ng.LoadAlertCondition (c.ParamsInt64 ":alertDefinitionId") c.SignedInUser
      c.SkipCache w).1 with err | conditions
    · rw [AlertDefinitionEval_load_error ng c w err hL]
      simp [callsAfterContext]
    · rw [AlertDefinitionEval_load_ok ng c w conditions hL]
      simpa using callsAfterContext_ConditionEval ng c ⟨conditions⟩ _
  · intro err hL
    rw [AlertDefinitionEval_load_error ng c w err hL]
    simp [contextCalls]
  · intro conditions hL
    rw [AlertDefinitionEval_load_ok ng c w conditions hL]
    simpa using hhead ⟨conditions⟩ _

/-- Witness of C8 as amended: a lookup that fails (organization 2 asking for definition 7)
leaves the run without any context creation. -/
theorem context_precedes_execute_witness :
    contextCalls (AlertDefinitionEval sampleNG (sampleReq 2 7 "" "" false)
      (1000 : Int)).2.trace = [] :=
  (context_precedes_execute sampleNG (sampleReq 2 7 "" "" false) ⟨(42 : Nat)⟩
    (1000 : Int)).2.2.2.2.2.1 "not found" rfl

/-- C8 as stated fails for `AlertDefinitionEval`: for definition 7 asked by its own
organization the lookup is the first call, made at clock 1000, and the context is created
after it, at clock 1001. -/
theorem lookup_runs_before_context_exists :
    (AlertDefinitionEval sampleNG (sampleReq 1 7 "" "" false) (1000 : Int)).2.trace =
        [.LoadAlertCondition 7 ⟨5, 1⟩ false,
         .WithTimeout 30 1001,
         .Execute (42 : Nat) ⟨⟨some 1031⟩, ⟨5, 1⟩⟩ "now-3h" "now",
         .EvaluateExecutionResult (43 : Nat),
         .AsDataFrame (86 : Nat),
         .Encoded ⟨[(186 : Nat)]⟩,
         .cancelFn] ∧
      ¬ (callsAfterContext (AlertDefinitionEval sampleNG (sampleReq 1 7 "" "" false)
        (1000 : Int)).2.trace = true) :=
  ⟨rfl, by decide⟩

/-! ## Properties of the definition handlers -/

/-- C4, as the code has it: `GetAlertDefinitionEndpoint` dispatches one query that carries
the definition ID of the URL and nothing of the requesting user.  Its whole run is the same
for any two requests with the same path parameter, whatever their users and organizations;
it answers 500 "Failed to get alert definition" when the dispatch fails and otherwise 200
with the definition the dispatch put in the query. -/
theorem GetAlertDefinitionEndpoint_queries_by_id_only (ng : AlertNG T) (c : ReqContext)
    (w : T.World) :
    (GetAlertDefinitionEndpoint ng c w).2.trace =
      [.Dispatch { ID := c.ParamsInt64 ":alertDefinitionId" }] ∧
    (GetAlertDefinitionEndpoint ng c w).1 =
      (match (ng.Dispatch { ID := c.ParamsInt64 ":alertDefinitionId" } w).1 with
       | .error err => api.Error 500 "Failed to get alert definition" err
       | .ok query => api.JSON 200 (.value (.definition query.Result))) ∧
    (∀ c' : ReqContext,
      c'.ParamsInt64 ":alertDefinitionId" = c.ParamsInt64 ":alertDefinitionId" →
      GetAlertDefinitionEndpoint ng c' w = GetAlertDefinitionEndpoint ng c w) := by
  refine ⟨?_, ?_, ?_⟩
  · rcases hD : (ng.Dispatch { ID := c.ParamsInt64 ":alertDefinitionId" } w).1 with err | q <;>
      simp [GetAlertDefinitionEndpoint, callDispatch, hD]
  · rcases hD : (ng.Dispatch { ID := c.ParamsInt64 ":alertDefinitionId" } w).1 with err | q <;>
      simp [GetAlertDefinitionEndpoint, callDispatch, hD]
  · intro c' hid
    unfold GetAlertDefinitionEndpoint
    rw [hid]

/-- Witness of C4 as amended: users of organizations 1 and 2 asking for definition 7 get the
same run. -/
theorem GetAlertDefinitionEndpoint_queries_by_id_only_witness :
    GetAlertDefinitionEndpoint sampleNG (sampleReq 2 7 "" "" false) (1000 : Int) =
      GetAlertDefinitionEndpoint sampleNG (sampleReq 1 7 "" "" true) (1000 : Int) :=
  (GetAlertDefinitionEndpoint_queries_by_id_only sampleNG (sampleReq 1 7 "" "" true)
    (1000 : Int)).2.2 (sampleReq 2 7 "" "" false) rfl

/-- C4 as stated fails: the store holds definition 7 of organization 1; a user of
organization 2 asks for it, the query dispatched names the ID 7 and no organization, and the
handler answers 200 with the definition of organization 1. -/
theorem GetAlertDefinitionEndpoint_returns_foreign_definition :
    (sampleReq 2 7 "" "" false).SignedInUser.OrgId = 2 ∧
      (GetAlertDefinitionEndpoint sampleNG (sampleReq 2 7 "" "" false) (1000 : Int)).2.trace =
        [.Dispatch { ID := 7 }] ∧
      (GetAlertDefinitionEndpoint sampleNG (sampleReq 2 7 "" "" false) (1000 : Int)).1 =
        api.JSON 200 (.value (.definition { Id := 7, OrgId := 1 })) :=
  ⟨rfl, rfl, rfl⟩

/-- C10: the create, delete and list handlers are scoped to the caller's organization.
`CreateAlertDefinitionEndpoint` passes to `SaveAlertDefinition` the bound command with its
`OrgID` overwritten by the signed-in user's `OrgId`, so the `OrgID` of the request body has
no effect on the run; `DeleteAlertDefinitionEndpoint` deletes with the user's `OrgId` and the
ID of the path parameter; `ListAlertDefinitions` lists with the user's `OrgId`.  Each answers
500 when its store call fails and 200 otherwise. -/
theorem crud_scoped_to_caller_org (ng : AlertNG T) (c : ReqContext)
    (cmd : SaveAlertDefinitionCommand T) (w : T.World) :
    (CreateAlertDefinitionEndpoint ng c cmd w).2.trace =
      [.SaveAlertDefinition { cmd with OrgID := c.SignedInUser.OrgId,
                                       SignedInUser := some c.SignedInUser,
                                       SkipCache := c.SkipCache }] ∧
    (∀ org : Int,
      CreateAlertDefinitionEndpoint ng c { cmd with OrgID := org } w =
        CreateAlertDefinitionEndpoint ng c cmd w) ∧
    (∀ sent ∈ saveCalls (CreateAlertDefinitionEndpoint ng c cmd w).2.trace,
      sent.OrgID = c.SignedInUser.OrgId) ∧
    (DeleteAlertDefinitionEndpoint ng c w).2.trace =
      [.DeleteAlertDefinitionByID { ID := c.ParamsInt64 ":alertDefinitionId",
                                    OrgID := c.SignedInUser.OrgId }] ∧
    (ListAlertDefinitions ng c w).2.trace =
      [.GetAlertDefinitions { OrgID := c.SignedInUser.OrgId }] ∧
    (CreateAlertDefinitionEndpoint ng c cmd w).1.status =
      (match (ng.SaveAlertDefinition { cmd with OrgID := c.SignedInUser.OrgId,
                                                SignedInUser := some c.SignedInUser,
                                                SkipCache := c.SkipCache } w).1 with
       | .error _ => 500
       | .ok _ => 200) ∧
    (DeleteAlertDefinitionEndpoint ng c w).1.status =
      (match (ng.DeleteAlertDefinitionByID { ID := c.ParamsInt64 ":alertDefinitionId",
                                             OrgID := c.SignedInUser.OrgId } w).1 with
       | .error _ => 500
       | .ok _ => 200) ∧
    (ListAlertDefinitions ng c w).1.status =
      (match (ng.GetAlertDefinitions { OrgID := c.SignedInUser.OrgId } w).1 with
       | .error _ => 500
       | .ok _ => 200) := by
  have hC : (CreateAlertDefinitionEndpoint ng c cmd w).2.trace =
      [.SaveAlertDefinition { cmd with OrgID := c.SignedInUser.OrgId,
                                       SignedInUser := some c.SignedInUser,
                                       SkipCache := c.SkipCache }] := by
    rcases hS : (ng.SaveAlertDefinition { cmd with OrgID := c.SignedInUser.OrgId,
                                                   SignedInUser := some c.SignedInUser,
                                                   SkipCache := c.SkipCache } w).1
      with err | r <;> simp [CreateAlertDefinitionEndpoint, callSaveAlertDefinition, hS]
  refine ⟨hC, ?_, ?_, ?_, ?_, ?_, ?_, ?_⟩
  · intro org
    rfl
  · intro sent hsent
    rw [hC] at hsent
    simp only [saveCalls, List.filterMap_cons, List.filterMap_nil, List.mem_singleton] at hsent
    subst hsent
    rfl
  · rcases hS : (ng.DeleteAlertDefinitionByID { ID := c.ParamsInt64 ":alertDefinitionId",
                                                OrgID := c.SignedInUser.OrgId } w).1
      with err | r <;> simp [DeleteAlertDefinitionEndpoint, callDeleteAlertDefinitionByID, hS]
  · rcases hS : (ng.GetAlertDefinitions { OrgID := c.SignedInUser.OrgId } w).1
      with err | r <;> simp [ListAlertDefinitions, callGetAlertDefinitions, hS]
  · rcases hS : (ng.SaveAlertDefinition { cmd with OrgID := c.SignedInUser.OrgId,
                                                   SignedInUser := some c.SignedInUser,
                                                   SkipCache := c.SkipCache } w).1
      with err | r <;>
      simp [CreateAlertDefinitionEndpoint, callSaveAlertDefinition, hS, api.Error, api.JSON,
        Response.status]
  · rcases hS : (ng.DeleteAlertDefinitionByID { ID := c.ParamsInt64 ":alertDefinitionId",
                                                OrgID := c.SignedInUser.OrgId } w).1
      with err | r <;>
      simp [DeleteAlertDefinitionEndpoint, callDeleteAlertDefinitionByID, hS, api.Error,
        api.JSON, Response.status]
  · rcases hS : (ng.GetAlertDefinitions { OrgID := c.SignedInUser.OrgId } w).1
      with err | r <;>
      simp [ListAlertDefinitions, callGetAlertDefinitions, hS, api.Error, api.JSON,
        Response.status]

/-- Witness of C10: a body claiming organization 99, sent by a user of organization 1,
reaches `SaveAlertDefinition` with organization 1. -/
theorem crud_scoped_to_caller_org_witness :
    (⟨"cpu high", 1, some ⟨5, 1⟩, false, ⟨0, 0⟩⟩ : SaveAlertDefinitionCommand sampleTypes).OrgID
        = (sampleReq 1 0 "" "" false).SignedInUser.OrgId :=
  (crud_scoped_to_caller_org sampleNG (sampleReq 1 0 "" "" false)
    ⟨"cpu high", 99, none, true, ⟨0, 0⟩⟩ (1000 : Int)).2.2.1
    ⟨"cpu high", 1, some ⟨5, 1⟩, false, ⟨0, 0⟩⟩ (List.mem_singleton.mpr rfl)

end Properties

end ngalert
